import Mathlib

/-!
Shallow embedding of `wyscoutapi` (src/wyscoutapi/__init__.py): the
`WyscoutAPILoader` (URL construction, parameter encoding, response
classification, Basic-auth construction) and the `APIClient` methods the
claims refer to, together with theorems settling the claims.
-/

namespace Wyscout

/-- Decoded JSON values, as produced by `response.json()`.  Numbers are
modelled as integers (the error codes the code compares against are
integers); objects are association lists with the unique-key discipline of
Python dicts. -/
inductive JSON where
  | null
  | bool (b : Bool)
  | num (n : Int)
  | str (s : String)
  | arr (xs : List JSON)
  | obj (fields : List (String × JSON))

/-- Python truthiness (`if error:`) on decoded JSON values: `None`, `False`,
`0`, `""`, `[]` and `{}` are falsy, everything else truthy. -/
def JSON.truthy : JSON → Bool
  | .null => false
  | .bool b => b
  | .num n => n != 0
  | .str s => s != ""
  | .arr xs => !xs.isEmpty
  | .obj fs => !fs.isEmpty

/-- Python equality between a decoded JSON value and an integer literal
(`error['code'] == 401`): an int compares by value, a bool compares as
`0`/`1`, every other type is unequal to an int. -/
def JSON.pyEqInt : JSON → Int → Bool
  | .num n, k => n == k
  | .bool b, k => (if b then (1 : Int) else 0) == k
  | _, _ => false

/-- The exceptions `_parse_response` can raise.  The first four mirror the
`WyscoutAPIError` subclasses declared at the top of the module (their
payload is whatever Python value they were constructed with); `keyError`
and `typeError` are the builtin exceptions a dict/non-dict subscription can
raise. -/
inductive PyError where
  | authenticationError (msg : JSON)
  | badRequestError (msg : JSON)
  | tooManyRequestsError (msg : JSON)
  | unknownError (msg : JSON)
  | keyError (key : String)
  | typeError (msg : String)

/-- Whether an exception is one of the typed API exceptions derived from
`WyscoutAPIError` (as opposed to a builtin `KeyError`/`TypeError`). -/
def PyError.isWyscoutAPIError : PyError → Bool
  | .authenticationError _ => true
  | .badRequestError _ => true
  | .tooManyRequestsError _ => true
  | .unknownError _ => true
  | .keyError _ => false
  | .typeError _ => false

/-- `WyscoutAPILoader._parse_response`, after `response.json()` has been
decoded to `content`.  `content.get('error', None)` raises
`AttributeError` on every non-dict body (the `except AttributeError`
branch returns the body); on a dict, a truthy `error` is dispatched: a
string raises `UnknownError(error)`, otherwise `error['code']` is compared
against 401/400/429 and the matching typed exception is raised with
`error['message']`; subscripting a non-dict raises `TypeError` and a
missing key raises `KeyError`. -/
def parse_response (content : JSON) : Except PyError JSON :=
  match content with
  | .obj fields =>
    let error := (fields.lookup "error").getD .null
    if error.truthy then
      match error with
      | .str s => .error (.unknownError (.str s))
      | .obj efields =>
        match efields.lookup "code" with
        | Option.none => .error (.keyError "code")
        | Option.some code =>
          if code.pyEqInt 401 then
            match efields.lookup "message" with
            | Option.none => .error (.keyError "message")
            | Option.some m => .error (.authenticationError m)
          else if code.pyEqInt 400 then
            match efields.lookup "message" with
            | Option.none => .error (.keyError "message")
            | Option.some m => .error (.badRequestError m)
          else if code.pyEqInt 429 then
            match efields.lookup "message" with
            | Option.none => .error (.keyError "message")
            | Option.some m => .error (.tooManyRequestsError m)
          else
            match efields.lookup "message" with
            | Option.none => .error (.keyError "message")
            | Option.some m => .error (.unknownError m)
      | _ => .error (.typeError "object is not subscriptable")
    else
      .ok content
  | other => .ok other

/-- Python values passed as route segments or keyword-parameter values to
`get_route_json`: `None`, booleans, strings or integers. -/
inductive PyVal where
  | none
  | bool (b : Bool)
  | str (s : String)
  | int (n : Int)

/-- Python `str()` on a parameter or route-segment value: `str(True)` is
`"True"`, `str(None)` is `"None"`, integers print in decimal. -/
def PyVal.pyStr : PyVal → String
  | .none => "None"
  | .bool true => "True"
  | .bool false => "False"
  | .str s => s
  | .int n => toString n

/-- `json.dumps` on a parameter value (a Python `str` results): booleans
dump as `true`/`false`, `None` as `null`, strings gain quotes. -/
def PyVal.jsonDumps : PyVal → PyVal
  | .none => .str "null"
  | .bool true => .str "true"
  | .bool false => .str "false"
  | .str s => .str ("\"" ++ s ++ "\"")
  | .int n => .str (toString n)

/-- `isinstance(param, bool)` where `param` is a keyword-argument key.
Keyword-argument keys are always Python `str` objects, and a `str` is
never an instance of `bool`, so this is constantly `false`. -/
def strIsInstanceBool (_key : String) : Bool := false

/-- The loop at the top of `get_route_json`:
`for param, val in params.items(): if isinstance(param, bool):
params[param] = json.dumps(val)`.  The test is applied to the key
`param`, not the value, so the `json.dumps` rewrite is unreachable. -/
def fixBoolParams (params : List (String × PyVal)) : List (String × PyVal) :=
  params.map fun kv => if strIsInstanceBool kv.1 then (kv.1, kv.2.jsonDumps) else kv

/-- The query-string encoding performed by `requests.get(url, params=...)`
(the repository delegates all parameter serialization to the `requests`
library): entries whose value is `None` are omitted, every other value is
rendered with `str()`. -/
def encodeParams (params : List (String × PyVal)) : List (String × String) :=
  params.filterMap fun kv =>
    match kv.2 with
    | PyVal.none => Option.none
    | v => Option.some (kv.1, v.pyStr)

/-- The standard base64 alphabet used by `base64.b64encode`. -/
def b64Alphabet : List Char :=
  [ 'A','B','C','D','E','F','G','H','I','J','K','L','M',
    'N','O','P','Q','R','S','T','U','V','W','X','Y','Z',
    'a','b','c','d','e','f','g','h','i','j','k','l','m',
    'n','o','p','q','r','s','t','u','v','w','x','y','z',
    '0','1','2','3','4','5','6','7','8','9','+','/' ]

/-- The base64 digit for a 6-bit group. -/
def b64Char (n : Nat) : Char := b64Alphabet.getD n 'A'

/-- `base64.b64encode` on a byte string (bytes as naturals below 256):
groups of three bytes become four alphabet characters; a trailing group of
two or one bytes is padded with `=` or `==`. -/
def b64encode : List Nat → String
  | b1 :: b2 :: b3 :: rest =>
    let n := b1 * 65536 + b2 * 256 + b3
    String.mk [b64Char (n / 262144), b64Char (n / 4096 % 64),
               b64Char (n / 64 % 64), b64Char (n % 64)] ++ b64encode rest
  | [b1, b2] =>
    let n := b1 * 65536 + b2 * 256
    String.mk [b64Char (n / 262144), b64Char (n / 4096 % 64),
               b64Char (n / 64 % 64)] ++ "="
  | [b1] =>
    let n := b1 * 65536
    String.mk [b64Char (n / 262144), b64Char (n / 4096 % 64)] ++ "=="
  | [] => ""

/-- The `ratelimiter.RateLimiter(max_calls=requests_per_sec, period=1)`
object stored on the loader, by its configuration. -/
structure RateLimiter where
  max_calls : Nat
  period : Nat

/-- The state of a constructed `WyscoutAPILoader`: exactly the four
attributes its `__init__` assigns (`self.username`, `self.version`,
`self.rate_limiter`, `self.headers`).  Username and password are byte
strings (the credentials are encoded with `.encode()` before base64). -/
structure WyscoutAPILoader where
  username : List Nat
  version : String
  rate_limiter : RateLimiter
  headers : List (String × String)

/-- `WyscoutAPILoader.BASE_URL`. -/
def BASE_URL : String := "https://apirest.wyscout.com"

/-- Byte 58 is the ASCII colon inserted by `f'{username}:{password}'`. -/
def colonByte : Nat := 58

/-- `WyscoutAPILoader.__init__(username, password, version, requests_per_sec)`
(defaults `version='v3'`, `requests_per_sec=12`): stores the username,
the version, the rate limiter, and an `Authorization` header holding
`'Basic '` followed by the base64 encoding of `username:password`.  The
password is used only to compute the header. -/
def WyscoutAPILoader.init (username password : List Nat) (version : String)
    (requests_per_sec : Nat) : WyscoutAPILoader :=
  { username := username
    version := version
    rate_limiter := { max_calls := requests_per_sec, period := 1 }
    headers := [("Authorization",
      "Basic " ++ b64encode (username ++ colonByte :: password))] }

/-- `WyscoutAPILoader._url(*route)`: the base host, the configured version
and the route segments (each rendered with `str()`) joined by `/`. -/
def WyscoutAPILoader.url (l : WyscoutAPILoader) (route : List PyVal) : String :=
  BASE_URL ++ "/" ++ l.version ++ "/" ++
    String.intercalate "/" (route.map PyVal.pyStr)

/-- `WyscoutAPILoader.get_route_json(*route, **params)`: rewrite the params
with the (unreachable) bool fix, issue the GET through `http` — which
stands for the network: it receives the built URL, the stored headers and
the encoded query pairs and yields the decoded response body — and
classify the body with `_parse_response`. -/
def get_route_json (l : WyscoutAPILoader) (route : List PyVal)
    (params : List (String × PyVal))
    (http : String → List (String × String) → List (String × String) → JSON) :
    Except PyError JSON :=
  parse_response (http (l.url route) l.headers (encodeParams (fixBoolParams params)))

/-- Python subscription `resp[key]` on a decoded response: a dict yields
the value at the key or raises `KeyError`; any other value raises
`TypeError`. -/
def pySubscript (v : JSON) (key : String) : Except PyError JSON :=
  match v with
  | .obj fs =>
    match fs.lookup key with
    | Option.some x => .ok x
    | Option.none => .error (.keyError key)
  | _ => .error (.typeError "indices must be integers")

/-- `APIClient.updated_objects(timestamp, object_type)`: calls the loader
with route `('updatedobjects',)` and params `updated_since=timestamp,
type=object_type`, then subscripts the result at `object_type`.  `gr`
stands for the injected loader's `get_route_json` (the client works with
any loader object). -/
def updated_objects
    (gr : List PyVal → List (String × PyVal) → Except PyError JSON)
    (timestamp object_type : String) : Except PyError JSON :=
  match gr [.str "updatedobjects"]
           [("updated_since", .str timestamp), ("type", .str object_type)] with
  | .error e => .error e
  | .ok resp => pySubscript resp object_type

/-- `APIClient.team_career(team_id, season_id=None, details=None,
fetch=None)`: calls the loader with route `('teams', team_id, 'career')`
and params `details=details, fetch=fetch`.  The `season_id` argument is
accepted but does not appear in the body. -/
def team_career
    (gr : List PyVal → List (String × PyVal) → Except PyError JSON)
    (team_id : Int) (_season_id : PyVal) (details fetch : PyVal) :
    Except PyError JSON :=
  gr [.str "teams", .int team_id, .str "career"]
     [("details", details), ("fetch", fetch)]

/-! Theorems -/

/-- The `json.dumps` rewrite in `get_route_json` is unreachable: the
`isinstance` test is applied to the string-typed key, so the loop leaves
the params unchanged. -/
theorem fixBoolParams_eq_id (params : List (String × PyVal)) :
    fixBoolParams params = params := by
  simp [fixBoolParams, strIsInstanceBool]

/-- Claim C6: `_url` produces the base host, then the version, then each
route segment coerced to string, joined by `/`; in particular segments
`["teams", 123, "squad"]` with version `"v3"` yield exactly
`https://apirest.wyscout.com/v3/teams/123/squad`. -/
theorem url_builds_base_version_route :
    (∀ (l : WyscoutAPILoader) (route : List PyVal),
      l.url route =
        BASE_URL ++ "/" ++ l.version ++ "/" ++
          String.intercalate "/" (route.map PyVal.pyStr)) ∧
    (WyscoutAPILoader.init [] [] "v3" 12).url
        [.str "teams", .int 123, .str "squad"] =
      "https://apirest.wyscout.com/v3/teams/123/squad" :=
  ⟨fun _ _ => rfl, by decide⟩

/-- Claim C7: the constructor stores the username as a retrievable field
and sets the `Authorization` header to `'Basic '` followed by the base64
encoding of `username:password`; the constructed state consists of exactly
the fields `username`, `version`, `rate_limiter` and `headers` (the
structure-eta conjunct), so the password is not retained as a retrievable
field — it enters only through `b64encode` inside the header.  The final
conjunct checks the encoder on the bytes of `user:pass`, whose base64 is
`dXNlcjpwYXNz`. -/
theorem init_stores_username_and_basic_auth_header :
    (∀ (u p : List Nat) (v : String) (r : Nat),
      (WyscoutAPILoader.init u p v r).username = u ∧
      (WyscoutAPILoader.init u p v r).headers =
        [("Authorization", "Basic " ++ b64encode (u ++ colonByte :: p))] ∧
      WyscoutAPILoader.init u p v r =
        ⟨u, v, ⟨r, 1⟩,
         [("Authorization", "Basic " ++ b64encode (u ++ colonByte :: p))]⟩) ∧
    (∀ l : WyscoutAPILoader,
      l = ⟨l.username, l.version, l.rate_limiter, l.headers⟩) ∧
    b64encode [117, 115, 101, 114, 58, 112, 97, 115, 115] = "dXNlcjpwYXNz" :=
  ⟨fun _ _ _ _ => ⟨rfl, rfl, rfl⟩, fun _ => rfl, by decide⟩

/-- Claim C8: `updated_objects(timestamp, object_type)` returns the value
stored at key `object_type` of the decoded response mapping, not the whole
mapping. -/
theorem updated_objects_indexes_by_object_type :
    ∀ (gr : List PyVal → List (String × PyVal) → Except PyError JSON)
      (t ot : String) (m : List (String × JSON)) (v : JSON),
      gr [.str "updatedobjects"]
         [("updated_since", .str t), ("type", .str ot)] = .ok (.obj m) →
      m.lookup ot = Option.some v →
      updated_objects gr t ot = .ok v := by
  intro gr t ot m v h1 h2
  simp [updated_objects, h1, pySubscript, h2]

/-- Witness for claim C8 at a concrete loader response: the mapping
`{"players": 7}` yields `7`, the value at key `"players"`. -/
theorem updated_objects_indexes_by_object_type_witness :
    updated_objects (fun _ _ => .ok (.obj [("players", .num 7)]))
      "2018-02-09 18:00:00" "players" = .ok (.num 7) :=
  updated_objects_indexes_by_object_type _ _ _ _ _ rfl rfl

/-- Claim C10: `team_career` issues the same request regardless of the
`season_id` argument, with route `['teams', team_id, 'career']` and params
containing only `details` and `fetch`. -/
theorem team_career_ignores_season_id :
    ∀ (gr : List PyVal → List (String × PyVal) → Except PyError JSON)
      (tid : Int) (s s' d f : PyVal),
      team_career gr tid s d f = team_career gr tid s' d f ∧
      team_career gr tid s d f =
        gr [.str "teams", .int tid, .str "career"]
           [("details", d), ("fetch", f)] :=
  fun _ _ _ _ _ _ => ⟨rfl, rfl⟩

/-- Claim C1: the code intends (per its own comment, `So that True ->
'true'`) to serialize boolean params as `"true"`/`"false"`, but the guard
`isinstance(param, bool)` tests the key rather than the value, so the
rewrite never fires and the value `True` reaches the wire as the `requests`
rendering `"True"` — not `"true"` as the claim states. -/
theorem bool_param_is_sent_as_python_repr :
    encodeParams (fixBoolParams [("details", PyVal.bool true)]) =
      [("details", "True")] ∧
    encodeParams (fixBoolParams [("details", PyVal.bool true)]) ≠
      [("details", "true")] := by
  constructor
  · rfl
  · intro h
    simp [encodeParams, fixBoolParams, strIsInstanceBool, PyVal.pyStr] at h

/-- Claim C4: entries with value `None` are excluded from the outbound
query string: the encoded parameters are exactly the non-`None` entries,
each rendered with `str()`. -/
theorem none_valued_params_are_dropped :
    ∀ params : List (String × PyVal),
      encodeParams (fixBoolParams params) =
        (params.filter fun kv =>
            match kv.2 with
            | PyVal.none => false
            | _ => true).map
          fun kv => (kv.1, kv.2.pyStr) := by
  intro params
  rw [fixBoolParams_eq_id]
  induction params with
  | nil => rfl
  | cons kv rest ih =>
    obtain ⟨k, v⟩ := kv
    cases v <;> simp [encodeParams, List.filterMap_cons, List.filter_cons] <;>
      simpa [encodeParams] using ih

/-- Claim C2: on a mapping body with a truthy `error` field, a string
error raises `UnknownError(error)`; a mapping error dispatches on
`error['code']` — 401 raises `AuthenticationError(message)`, 400
`BadRequestError(message)`, 429 `TooManyRequestsError(message)`, and any
code Python-unequal to all three raises `UnknownError(message)`. -/
theorem parse_response_error_dispatch :
    (∀ (fs : List (String × JSON)) (s : String), s ≠ "" →
      fs.lookup "error" = Option.some (.str s) →
      parse_response (.obj fs) = .error (.unknownError (.str s))) ∧
    (∀ (fs efs : List (String × JSON)) (m : JSON),
      fs.lookup "error" = Option.some (.obj efs) → efs ≠ [] →
      efs.lookup "message" = Option.some m →
      (efs.lookup "code" = Option.some (.num 401) →
        parse_response (.obj fs) = .error (.authenticationError m)) ∧
      (efs.lookup "code" = Option.some (.num 400) →
        parse_response (.obj fs) = .error (.badRequestError m)) ∧
      (efs.lookup "code" = Option.some (.num 429) →
        parse_response (.obj fs) = .error (.tooManyRequestsError m)) ∧
      (∀ c : JSON, efs.lookup "code" = Option.some c →
        c.pyEqInt 401 = false → c.pyEqInt 400 = false → c.pyEqInt 429 = false →
        parse_response (.obj fs) = .error (.unknownError m))) := by
  constructor
  · intro fs s hs h
    simp [parse_response, h, JSON.truthy, hs]
  · intro fs efs m h hne hm
    have hemp : efs.isEmpty = false := by
      cases efs with
      | nil => exact absurd rfl hne
      | cons e es => rfl
    refine ⟨?_, ?_, ?_, ?_⟩
    · intro hc
      simp [parse_response, h, JSON.truthy, hemp, hc, JSON.pyEqInt, hm]
    · intro hc
      simp [parse_response, h, JSON.truthy, hemp, hc, JSON.pyEqInt, hm]
    · intro hc
      simp [parse_response, h, JSON.truthy, hemp, hc, JSON.pyEqInt, hm]
    · intro c hc h401 h400 h429
      simp [parse_response, h, JSON.truthy, hemp, hc, h401, h400, h429, hm]

/-- Witness for claim C2: the response
`{"error": {"code": 401, "message": "bad creds"}}` raises
`AuthenticationError("bad creds")`. -/
theorem parse_response_error_dispatch_witness :
    parse_response
        (.obj [("error",
          .obj [("code", .num 401), ("message", .str "bad creds")])]) =
      .error (.authenticationError (.str "bad creds")) :=
  (parse_response_error_dispatch.2
    [("error", .obj [("code", .num 401), ("message", .str "bad creds")])]
    [("code", .num 401), ("message", .str "bad creds")]
    (.str "bad creds") rfl (by simp) rfl).1 rfl

/-- Claim C3: a list body, and a mapping body whose `error` field is
absent or falsy, pass through `get_route_json` verbatim with no error
raised (the absent and falsy cases are both exactly
`content.get('error', None)` being falsy). -/
theorem get_route_json_returns_body_verbatim :
    ∀ (l : WyscoutAPILoader) (route : List PyVal)
      (params : List (String × PyVal))
      (http : String → List (String × String) → List (String × String) → JSON),
      (∀ xs : List JSON,
        http (l.url route) l.headers (encodeParams (fixBoolParams params)) =
          .arr xs →
        get_route_json l route params http = .ok (.arr xs)) ∧
      (∀ fs : List (String × JSON),
        http (l.url route) l.headers (encodeParams (fixBoolParams params)) =
          .obj fs →
        ((fs.lookup "error").getD .null).truthy = false →
        get_route_json l route params http = .ok (.obj fs)) := by
  intro l route params http
  constructor
  · intro xs h
    simp [get_route_json, h, parse_response]
  · intro fs h htr
    simp [get_route_json, h, parse_response, htr]

/-- Witness for claim C3: a list body `[1]` and a mapping body
`{"meta": 2}` (no `error` key) are returned unchanged. -/
theorem get_route_json_returns_body_verbatim_witness :
    get_route_json (WyscoutAPILoader.init [] [] "v3" 12) [.str "areas"] []
        (fun _ _ _ => .arr [.num 1]) = .ok (.arr [.num 1]) ∧
    get_route_json (WyscoutAPILoader.init [] [] "v3" 12) [.str "areas"] []
        (fun _ _ _ => .obj [("meta", .num 2)]) = .ok (.obj [("meta", .num 2)]) :=
  ⟨(get_route_json_returns_body_verbatim _ _ _ _).1 _ rfl,
   (get_route_json_returns_body_verbatim _ _ _ _).2 _ rfl rfl⟩

/-- Claim C9: a truthy mapping `error` lacking `"code"` makes
classification fail with `KeyError('code')`; with `"code"` present (any
value) but `"message"` absent it fails with `KeyError('message')`; a
`KeyError` is not one of the typed exceptions derived from
`WyscoutAPIError`. -/
theorem parse_response_missing_key_raises_keyerror :
    (∀ (fs efs : List (String × JSON)),
      fs.lookup "error" = Option.some (.obj efs) → efs ≠ [] →
      efs.lookup "code" = Option.none →
      parse_response (.obj fs) = .error (.keyError "code")) ∧
    (∀ (fs efs : List (String × JSON)) (c : JSON),
      fs.lookup "error" = Option.some (.obj efs) →
      efs.lookup "code" = Option.some c →
      efs.lookup "message" = Option.none →
      parse_response (.obj fs) = .error (.keyError "message")) ∧
    PyError.isWyscoutAPIError (.keyError "code") = false ∧
    PyError.isWyscoutAPIError (.keyError "message") = false := by
  refine ⟨?_, ?_, rfl, rfl⟩
  · intro fs efs h hne hc
    have hemp : efs.isEmpty = false := by
      cases efs with
      | nil => exact absurd rfl hne
      | cons e es => rfl
    simp [parse_response, h, JSON.truthy, hemp, hc]
  · intro fs efs c h hc hm
    have hemp : efs.isEmpty = false := by
      cases efs with
      | nil => simp at hc
      | cons e es => rfl
    simp only [parse_response, h, JSON.truthy, hemp, hc, hm,
      Option.getD_some, Bool.not_false, if_true]
    split <;> simp [hm]

/-- Witness for claim C9: `{"error": {"message": "m"}}` yields
`KeyError('code')` and `{"error": {"code": 500}}` yields
`KeyError('message')`. -/
theorem parse_response_missing_key_raises_keyerror_witness :
    parse_response (.obj [("error", .obj [("message", .str "m")])]) =
      .error (.keyError "code") ∧
    parse_response (.obj [("error", .obj [("code", .num 500)])]) =
      .error (.keyError "message") :=
  ⟨parse_response_missing_key_raises_keyerror.1 _ _ rfl (by simp) rfl,
   parse_response_missing_key_raises_keyerror.2.1 _ _ _ rfl rfl rfl⟩

end Wyscout
